import Mathlib

/-!
Verification development for the point-agent delegation engine
(the Blink Coordinator variant with conversation reuse, per-chat poll
counters, and the timeout state machine).

The embedding models the three tool implementations of the engine:
`list_agents` (discovery with all-organization fan-out), `delegate_to_agent`
(chat creation / reuse with 404 recovery), and `check_agent_response`
(the poll state machine).  Remote HTTP interactions are modelled as
oracles supplied as explicit arguments; the key-value context store is an
association list of string keys to string values, mirroring the
`context.store` get/set/delete interface.  JavaScript truthiness of
optional strings is modelled by `truthyOpt`; `new Date(...)`/`Date.now()`
timestamps are modelled as integer epoch milliseconds; `parseInt(s, 10)`
is modelled for decimal-digit strings (the only values the engine itself
ever stores under `check_count:` keys); `String.prototype.trim` is
modelled by `jsTrim`.
-/

/-- Truthiness of a JavaScript string value: non-empty strings are truthy. -/
def truthyStr (s : String) : Bool := s != ""

/-- Truthiness of a possibly-absent / null JavaScript string value. -/
def truthyOpt (o : Option String) : Bool :=
  match o with
  | some s => truthyStr s
  | none => false

/-- Right-strip of whitespace characters from a character list. -/
def rstripWs (l : List Char) : List Char :=
  (l.reverse.dropWhile Char.isWhitespace).reverse

/-- Trim of whitespace from both ends of a character list. -/
def jsTrimList (l : List Char) : List Char :=
  (rstripWs l).dropWhile Char.isWhitespace

/-- Model of JavaScript `String.prototype.trim`. -/
def jsTrim (s : String) : String := ⟨jsTrimList s.data⟩

/-- Model of `parseInt(s, 10)` restricted to non-empty decimal digit
strings; other inputs yield `none` (the engine only ever stores decimal
strings under `check_count:` keys). -/
def parseIntDec (s : String) : Option Nat :=
  if s.data ≠ [] ∧ s.data.all Char.isDigit then
    some (s.data.foldl (fun acc c => acc * 10 + (c.toNat - 48)) 0)
  else none

/-- The key-value context store (`context.store`), as an association list. -/
def Store : Type := List (String × String)

/-- Model of `context.store.get`. -/
def storeGet (st : Store) (k : String) : Option String :=
  match List.find? (fun e => e.1 == k) st with
  | some e => some e.2
  | none => none

/-- Model of `context.store.delete`. -/
def storeDelete (st : Store) (k : String) : Store :=
  List.filter (fun e => e.1 != k) st

/-- Model of `context.store.set`. -/
def storeSet (st : Store) (k v : String) : Store :=
  (k, v) :: storeDelete st k

/-- One part of a chat message (`{type, text}`); `text` is optional. -/
structure MsgPart where
  type : String
  text : Option String
deriving DecidableEq

/-- One chat message (`{role, parts}`); the `parts` array may be absent. -/
structure ChatMessage where
  role : String
  parts : Option (List MsgPart)
deriving DecidableEq

/-- The payload of `GET /api/chats/{id}`: `{status, created_at, error}`,
with `created_at` modelled as epoch milliseconds. -/
structure ChatData where
  status : String
  created_at : Int
  error : Option String
deriving DecidableEq

/-- Result object returned by `check_agent_response`.  Each optional field
is `none` exactly when the corresponding JavaScript return object omits
the field on that branch. -/
structure AggResult where
  status : String
  message : Option String
  chat_status : String
  check_count : Option Nat
  response : Option String
  message_count : Option Nat
  assistant_message_count : Option Nat
deriving DecidableEq

/-- Outcome of one `check_agent_response` call: the returned (or thrown)
result, together with the context store after the call. -/
structure CheckOutcome where
  result : Except String AggResult
  store : Store

/-- The message text used by the two still-processing branches. -/
def stillProcessingMessage : String :=
  "The agent is still processing your request. Please wait a moment and check again."

/-- A single-quote character, used inside the timeout / waiting messages. -/
def squote : String := String.singleton (Char.ofNat 39)

/-- The new value of the poll counter computed at the top of
`check_agent_response`:
`(previousCount ? parseInt(previousCount, 10) : 0) + 1`. -/
def checkCountAfter (store : Store) (chat_id : String) : Nat :=
  (match storeGet store ("check_count:" ++ chat_id) with
   | some s => if truthyStr s then (parseIntDec s).getD 0 else 0
   | none => 0) + 1

/-- The loop body `fullResponse += part.text + "\n\n"` guarded by
`part.type === "text" && part.text`. -/
def appendPartText (acc : String) (p : MsgPart) : String :=
  if p.type == "text" && truthyOpt p.text then acc ++ p.text.getD "" ++ "\n\n"
  else acc

/-- The outer loop over one message: `if (msg.parts) for (const part of msg.parts) ...`. -/
def appendMessageText (acc : String) (m : ChatMessage) : String :=
  match m.parts with
  | some ps => ps.foldl appendPartText acc
  | none => acc

/-- Accumulation of text from a list of (assistant) messages, starting
from the empty `fullResponse`. -/
def collectAssistantText (ms : List ChatMessage) : String :=
  ms.foldl appendMessageText ""

/-- `check_agent_response(chat_id)` as a function of the store, the
current time, and the two remote fetches (chat status, then message
list).  `msgsFetch`'s payload is `items`, possibly absent (`items || []`).
Thrown errors become `Except.error`.  The store update for the poll
counter happens first, before the chat status fetch is consulted. -/
def check_agent_response (store : Store) (chat_id : String) (now : Int)
    (chatFetch : Except String ChatData)
    (msgsFetch : Except String (Option (List ChatMessage))) : CheckOutcome :=
  let checkCountKey := "check_count:" ++ chat_id
  let checkCount := checkCountAfter store chat_id
  let store1 := storeSet store checkCountKey (toString checkCount)
  match chatFetch with
  | .error e => { result := .error ("Failed to get chat: " ++ e), store := store1 }
  | .ok chatData =>
    if truthyOpt chatData.error then
      { result := .ok
          { status := "error"
            message := some ("The agent encountered an error: " ++ chatData.error.getD "")
            chat_status := chatData.status
            check_count := some checkCount
            response := none, message_count := none, assistant_message_count := none }
        store := store1 }
    else if chatData.status == "streaming" then
      { result := .ok
          { status := "processing"
            message := some stillProcessingMessage
            chat_status := chatData.status
            check_count := some checkCount
            response := none, message_count := none, assistant_message_count := none }
        store := store1 }
    else if chatData.status != "idle" then
      let elapsedMs := now - chatData.created_at
      let timeoutMs : Int := 2 * 60 * 1000
      if elapsedMs > timeoutMs then
        { result := .ok
            { status := "timeout"
              message := some ("The agent chat is stuck in " ++ squote ++ chatData.status ++ squote ++
                " state for over 2 minutes. It may have encountered an issue. You can try asking the question again.")
              chat_status := chatData.status
              check_count := some checkCount
              response := none, message_count := none, assistant_message_count := none }
          store := store1 }
      else
        { result := .ok
            { status := "processing"
              message := some ("The agent chat is in " ++ squote ++ chatData.status ++ squote ++
                " state. Waiting for it to start processing...")
              chat_status := chatData.status
              check_count := some checkCount
              response := none, message_count := none, assistant_message_count := none }
          store := store1 }
    else
      match msgsFetch with
      | .error e => { result := .error ("Failed to get chat messages: " ++ e), store := store1 }
      | .ok items =>
        let messages := items.getD []
        let assistantMessages := messages.filter (fun m => m.role == "assistant")
        if assistantMessages.isEmpty then
          { result := .ok
              { status := "processing"
                message := some stillProcessingMessage
                chat_status := chatData.status
                check_count := none
                response := none, message_count := none, assistant_message_count := none }
            store := store1 }
        else
          let fullResponse := jsTrim (collectAssistantText assistantMessages)
          { result := .ok
              { status := "completed"
                message := none
                chat_status := chatData.status
                check_count := none
                response := some (if truthyStr fullResponse then fullResponse
                  else "Agent returned no text response")
                message_count := some messages.length
                assistant_message_count := some assistantMessages.length }
            store := store1 }

/-- Outcome of `POST /api/messages` (append to an existing chat): either
2xx, or a failing status code with body text (404 = chat not found). -/
inductive AppendOutcome where
  | ok
  | err (code : Nat) (body : String)
deriving DecidableEq

/-- Outcome of `POST /api/chats` (create a chat): either the new chat id,
or a failing status code with body text. -/
inductive CreateOutcome where
  | ok (id : String)
  | err (code : Nat) (body : String)
deriving DecidableEq

/-- Oracle for the remote chat service as seen by `delegate_to_agent`.
`chat_created_at` is the creation timestamp (epoch milliseconds) the
service would report for a chat id; `delegate_to_agent` never consults
it, but it lets claims speak about the age of an existing chat. -/
structure Remote where
  append : String → String → AppendOutcome
  create : String → String → String → CreateOutcome
  chat_created_at : String → Int

/-- The outbound request bodies `delegate_to_agent` places on the wire,
keeping only the fields the claims are about (the message text sent). -/
inductive WireRequest where
  | appendMessage (chat_id : String) (text : String)
  | createChat (organization_id : String) (agent_id : String) (text : String)
deriving DecidableEq

/-- The message text carried by an outbound request body. -/
def requestText : WireRequest → String
  | .appendMessage _ t => t
  | .createChat _ _ t => t

/-- The object returned by a successful `delegate_to_agent` call. -/
structure DelegationHandle where
  status : String
  message : String
  chat_id : String
  agent_id : String
  query : String
  continued_conversation : Bool
deriving DecidableEq

/-- Outcome of one `delegate_to_agent` call: the returned (or thrown)
handle, the context store after the call, and the outbound requests
issued, in order. -/
structure DelegateOutcome where
  result : Except String DelegationHandle
  store : Store
  requests : List WireRequest

/-- The chat-creation tail of `delegate_to_agent` (`POST /api/chats`,
store the new chat id, initialize its poll counter to "0", return a
handle with `continued_conversation: false`). -/
def createNewChat (remote : Remote) (store : Store)
    (agent_id organization_id query : String)
    (prior : List WireRequest) : DelegateOutcome :=
  let req := WireRequest.createChat organization_id agent_id query
  match remote.create organization_id agent_id query with
  | .err code body =>
    { result := .error ("Failed to communicate with agent: " ++ toString code ++ " - " ++ body)
      store := store, requests := prior ++ [req] }
  | .ok newChatId =>
    let store1 := storeSet store ("agent_chat:" ++ agent_id) newChatId
    let store2 := storeSet store1 ("check_count:" ++ newChatId) "0"
    { result := .ok
        { status := "delegated"
          message := "Successfully delegated query to agent. The agent is processing your request."
          chat_id := newChatId, agent_id := agent_id, query := query
          continued_conversation := false }
      store := store2, requests := prior ++ [req] }

/-- `delegate_to_agent(agent_id, organization_id, query, force_new_chat)`:
reuse the stored chat if present and not forced to start fresh; on a 404
from the append, delete the stale record and fall through to creation;
on any other append failure, throw. -/
def delegate_to_agent (remote : Remote) (store : Store)
    (agent_id organization_id query : String)
    (force_new_chat : Bool) : DelegateOutcome :=
  let storeKey := "agent_chat:" ++ agent_id
  match storeGet store storeKey with
  | some existingChatId =>
    if truthyStr existingChatId && !force_new_chat then
      let req := WireRequest.appendMessage existingChatId query
      match remote.append existingChatId query with
      | .ok =>
        let store1 := storeSet store ("check_count:" ++ existingChatId) "0"
        { result := .ok
            { status := "delegated"
              message := "Successfully sent message to existing conversation with agent. The agent is processing your request."
              chat_id := existingChatId, agent_id := agent_id, query := query
              continued_conversation := true }
          store := store1, requests := [req] }
      | .err code body =>
        if code == 404 then
          createNewChat remote (storeDelete store storeKey) agent_id organization_id query [req]
        else
          { result := .error ("Failed to send message to agent: " ++ toString code ++ " - " ++ body)
            store := store, requests := [req] }
    else
      createNewChat remote store agent_id organization_id query []
  | none => createNewChat remote store agent_id organization_id query []

/-- Oracle for the discovery endpoints: the organization listing and the
per-organization agent listing (agents are kept opaque, as strings). -/
structure DiscoveryRemote where
  organizations : Except String (List String)
  agents : String → Except String (List String)

/-- `list_agents(organization_id)`: with no organization id (argument and
`BLINK_ORG_ID` both absent or empty), fan out over every organization,
turning a failed per-organization listing into an empty contribution;
with an organization id, a failed listing throws. -/
def list_agents (remote : DiscoveryRemote) (apiToken : Option String)
    (envOrgId : Option String) (organization_id : Option String) :
    Except String (List String) :=
  if !truthyOpt apiToken then
    .error "BLINK_API_TOKEN environment variable not set. Please configure your Blink API token."
  else
    let orgId := if truthyOpt organization_id then organization_id else envOrgId
    if !truthyOpt orgId then
      match remote.organizations with
      | .error e => .error ("Failed to list organizations: " ++ e)
      | .ok orgs =>
        .ok ((orgs.map (fun org =>
          match remote.agents org with
          | .error _ => []
          | .ok items => items)).flatten)
    else
      match remote.agents (orgId.getD "") with
      | .error e => .error ("Failed to list agents: " ++ e)
      | .ok items => .ok items

/-- The texts the aggregation loop actually keeps from a part list:
text-typed parts whose text is present and non-empty, in order. -/
def keptPartTexts (ps : List MsgPart) : List String :=
  ps.filterMap (fun p => if p.type == "text" && truthyOpt p.text then p.text else none)

/-- The kept texts of a message list, in message order. -/
def keptTextsOfMessages (ms : List ChatMessage) : List String :=
  ms.flatMap (fun m => keptPartTexts (m.parts.getD []))

/-- Modelled from the spec: the text of every text-typed part of every
assistant message, in message order (including empty texts), used to
state the aggregation claim in the spec's own terms. -/
def assistantTextPartTexts (ms : List ChatMessage) : List String :=
  (ms.filter (fun m => m.role == "assistant")).flatMap
    (fun m => (m.parts.getD []).filterMap (fun p => if p.type == "text" then p.text else none))

/-- Modelled from the spec: joining a list of texts "separated by a blank
line". -/
def joinBlankLine : List String → String
  | [] => ""
  | [t] => t
  | t :: ts => t ++ "\n\n" ++ joinBlankLine ts

/-- Each text followed by the blank-line separator, concatenated — the
shape the aggregation loop actually builds before trimming. -/
def sepJoin : List String → String
  | [] => ""
  | t :: ts => t ++ "\n\n" ++ sepJoin ts

theorem string_data_append (a b : String) : (a ++ b).data = a.data ++ b.data := by
  cases a; cases b; rfl

theorem storeGet_storeSet_self (st : Store) (k v : String) :
    storeGet (storeSet st k v) k = some v := by
  simp [storeGet, storeSet, List.find?]

theorem find?_storeDelete_ne (st : Store) (k k' : String) (h : k' ≠ k) :
    List.find? (fun e => e.1 == k') (storeDelete st k) =
      List.find? (fun e => e.1 == k') st := by
  induction st with
  | nil => rfl
  | cons e st ih =>
    by_cases he : e.1 = k'
    · have h1 : (e.1 != k) = true := by simp [he, h]
      have h2 : (e.1 == k') = true := by simp [he]
      simp [storeDelete, List.filter_cons, h1, List.find?, h2]
      try simpa [storeDelete] using ih
    · have h2 : (e.1 == k') = false := by simp [he]
      by_cases hk : e.1 = k
      · have h1 : (e.1 != k) = false := by simp [hk]
        simp [storeDelete, List.filter_cons, h1, List.find?, h2]
        try simpa [storeDelete] using ih
      · have h1 : (e.1 != k) = true := by simp [hk]
        simp [storeDelete, List.filter_cons, h1, List.find?, h2]
        try simpa [storeDelete] using ih

theorem storeGet_storeSet_other (st : Store) (k k' v : String) (h : k' ≠ k) :
    storeGet (storeSet st k v) k' = storeGet st k' := by
  have hk : (k == k') = false := by
    simp only [beq_eq_false_iff_ne, ne_eq]
    exact fun e => h e.symm
  simp [storeGet, storeSet, List.find?, hk, find?_storeDelete_ne st k k' h]

theorem agentKey_ne_checkKey (a b : String) :
    ("agent_chat:" ++ a) ≠ ("check_count:" ++ b) := by
  intro h
  have h3 : (("agent_chat:" ++ a) : String).data.head? = some 'a' := rfl
  rw [h] at h3
  have h4 : (("check_count:" ++ b) : String).data.head? = some 'c' := rfl
  rw [h4] at h3
  exact absurd (Option.some.inj h3) (by decide)

theorem check_store_eq (store : Store) (chat_id : String) (now : Int)
    (cf : Except String ChatData) (mf : Except String (Option (List ChatMessage))) :
    (check_agent_response store chat_id now cf mf).store =
      storeSet store ("check_count:" ++ chat_id) (toString (checkCountAfter store chat_id)) := by
  unfold check_agent_response
  cases cf with
  | error e => rfl
  | ok cd =>
    dsimp only
    repeat' split
    all_goals rfl

theorem jsTrimList_append_blank (l : List Char) :
    jsTrimList (l ++ ['\n', '\n']) = jsTrimList l := by
  unfold jsTrimList rstripWs
  rw [List.reverse_append]
  have hnl : Char.isWhitespace '\n' = true := by decide
  simp [List.dropWhile, hnl]

theorem jsTrim_append_blank (s : String) : jsTrim (s ++ "\n\n") = jsTrim s := by
  unfold jsTrim
  rw [string_data_append]
  have hd : ("\n\n" : String).data = ['\n', '\n'] := rfl
  rw [hd, jsTrimList_append_blank]

theorem sepJoin_append (xs ys : List String) :
    sepJoin (xs ++ ys) = sepJoin xs ++ sepJoin ys := by
  induction xs with
  | nil => simp [sepJoin]
  | cons t ts ih => simp [sepJoin, ih, String.append_assoc]

theorem foldl_appendPartText (ps : List MsgPart) (acc : String) :
    ps.foldl appendPartText acc = acc ++ sepJoin (keptPartTexts ps) := by
  induction ps generalizing acc with
  | nil => simp [keptPartTexts, sepJoin]
  | cons p ps ih =>
    by_cases hp : (p.type == "text" && truthyOpt p.text) = true
    · have hA : p.type = "text" := by
        have h2 := hp
        simp [Bool.and_eq_true] at h2
        exact h2.1
      have hB : truthyOpt p.text = true := by
        have h2 := hp
        simp [Bool.and_eq_true] at h2
        exact h2.2
      obtain ⟨t, htext⟩ : ∃ t, p.text = some t := by
        cases htx : p.text with
        | some t => exact ⟨t, rfl⟩
        | none => rw [htx] at hB; simp [truthyOpt] at hB
      have hB2 : truthyOpt (some t) = true := htext ▸ hB
      simp [List.foldl_cons, appendPartText, keptPartTexts, List.filterMap_cons, hA, hB, hB2,
        htext, ih, sepJoin, String.append_assoc]
    · simp only [List.foldl_cons, appendPartText, hp, if_false, keptPartTexts,
        List.filterMap_cons, ih]
      simp [keptPartTexts, hp]

theorem foldl_appendMessageText (ms : List ChatMessage) (acc : String) :
    ms.foldl appendMessageText acc = acc ++ sepJoin (keptTextsOfMessages ms) := by
  induction ms generalizing acc with
  | nil => simp [keptTextsOfMessages, sepJoin]
  | cons m ms ih =>
    simp only [List.foldl_cons, keptTextsOfMessages, List.flatMap_cons, sepJoin_append, ih]
    cases hparts : m.parts with
    | some ps =>
      simp [appendMessageText, hparts, foldl_appendPartText, keptTextsOfMessages,
        String.append_assoc]
    | none =>
      simp [appendMessageText, hparts, keptPartTexts, sepJoin, keptTextsOfMessages]

theorem collectAssistantText_eq (ms : List ChatMessage) :
    collectAssistantText ms = sepJoin (keptTextsOfMessages ms) := by
  simpa [collectAssistantText] using foldl_appendMessageText ms ""

theorem sepJoin_eq_joinBlankLine (ts : List String) (h : ts ≠ []) :
    sepJoin ts = joinBlankLine ts ++ "\n\n" := by
  induction ts with
  | nil => exact absurd rfl h
  | cons t ts ih =>
    cases ts with
    | nil => simp [sepJoin, joinBlankLine]
    | cons r rs =>
      rw [show sepJoin (t :: r :: rs) = t ++ "\n\n" ++ sepJoin (r :: rs) from rfl,
        ih (by simp),
        show joinBlankLine (t :: r :: rs) = t ++ "\n\n" ++ joinBlankLine (r :: rs) from rfl]
      simp [String.append_assoc]

theorem jsTrim_sepJoin (ts : List String) :
    jsTrim (sepJoin ts) = jsTrim (joinBlankLine ts) := by
  cases ts with
  | nil => rfl
  | cons t ts =>
    rw [sepJoin_eq_joinBlankLine (t :: ts) (by simp), jsTrim_append_blank]

/-- C3 counterexample: a status payload whose `error` field is non-null but
empty (`error = some ""`) with status `streaming` makes `check_agent_response`
return `processing`, not `error` — the code tests JavaScript truthiness of
the error field, so a non-null empty-string error is not treated as an
error, refuting the claim as stated for every non-null error. -/
theorem C3_counterexample :
    (ChatData.mk "streaming" 0 (some "")).error ≠ none ∧
    ((check_agent_response [] "c1" 0 (.ok (ChatData.mk "streaming" 0 (some "")))
        (.ok none)).result.toOption.map (fun r => r.status)) = some "processing" := by
  constructor
  · intro h
    exact absurd h (by decide)
  · rfl

/-- C3 (amended): for every chat status payload whose `error` field is
non-null and non-empty, `check_agent_response` returns status `error`
carrying that error text, regardless of the reported lifecycle status. -/
theorem C3_error_dominates (store : Store) (chat_id : String) (now : Int)
    (cd : ChatData) (mf : Except String (Option (List ChatMessage)))
    (e : String) (he : cd.error = some e) (hne : e ≠ "") :
    ((check_agent_response store chat_id now (.ok cd) mf).result.toOption.map
      (fun r => (r.status, r.message))) =
      some ("error", some ("The agent encountered an error: " ++ e)) := by
  have ht : truthyOpt (some e) = true := by
    simp [truthyOpt, truthyStr]
    exact hne
  simp [check_agent_response, he, ht, Except.toOption]

/-- C3 witness: a streaming chat with a non-empty error text returns
status `error` with that text. -/
theorem C3_witness :
    ((check_agent_response [] "c1" 0 (.ok (ChatData.mk "streaming" 0 (some "boom")))
        (.ok none)).result.toOption.map (fun r => (r.status, r.message))) =
      some ("error", some ("The agent encountered an error: " ++ "boom")) :=
  C3_error_dominates [] "c1" 0 (ChatData.mk "streaming" 0 (some "boom")) (.ok none)
    "boom" rfl (by decide)

/-- C4: for every chat with no (truthy) error whose status is neither
`streaming` nor `idle`, `check_agent_response` returns `timeout` exactly
when the elapsed time since `created_at` strictly exceeds the 2-minute
threshold, and `processing` otherwise; either way the poll count at the
time of the check is attached. -/
theorem C4_timeout_boundary (store : Store) (chat_id : String) (now : Int)
    (cd : ChatData) (mf : Except String (Option (List ChatMessage)))
    (herr : truthyOpt cd.error = false)
    (hstream : cd.status ≠ "streaming") (hidle : cd.status ≠ "idle") :
    ((check_agent_response store chat_id now (.ok cd) mf).result.toOption.map
      (fun r => (r.status, r.check_count))) =
      some ((if now - cd.created_at > 2 * 60 * 1000 then "timeout" else "processing"),
        some (checkCountAfter store chat_id)) := by
  have h1 : (cd.status == "streaming") = false := by simp [hstream]
  have h2 : (cd.status != "idle") = true := by simp [hidle]
  simp only [check_agent_response, herr, h1, h2, Bool.false_eq_true, if_false, if_true]
  split <;> simp [Except.toOption]

/-- C4 witness: with `created_at = 0`, a queued chat checked at 2 minutes
plus one second (121000 ms) yields `timeout`, and at 1 minute 59 seconds
(119000 ms) yields `processing`. -/
theorem C4_witness :
    (((check_agent_response [] "c1" 121000 (.ok (ChatData.mk "queued" 0 none))
        (.ok none)).result.toOption.map (fun r => (r.status, r.check_count))) =
      some ("timeout", some 1)) ∧
    (((check_agent_response [] "c1" 119000 (.ok (ChatData.mk "queued" 0 none))
        (.ok none)).result.toOption.map (fun r => (r.status, r.check_count))) =
      some ("processing", some 1)) := by
  constructor
  · have h := C4_timeout_boundary [] "c1" 121000 (ChatData.mk "queued" 0 none)
      (.ok none) (by decide) (by decide) (by decide)
    rw [h]
    decide
  · have h := C4_timeout_boundary [] "c1" 119000 (ChatData.mk "queued" 0 none)
      (.ok none) (by decide) (by decide) (by decide)
    rw [h]
    decide

/-- C7: while the remote status is `streaming` and the error field is not
truthy, `check_agent_response` returns `processing` carrying the
incremented poll count; the incremented value is persisted to the store
under `check_count:<chat_id>` unconditionally — for every fetch outcome,
i.e. before the status is consulted — and the new count is exactly the
parsed previous count plus 1. -/
theorem C7_poll_count_increment (store : Store) (chat_id : String) (now : Int)
    (cd : ChatData) (mf : Except String (Option (List ChatMessage)))
    (herr : truthyOpt cd.error = false) (hstream : cd.status = "streaming") :
    (((check_agent_response store chat_id now (.ok cd) mf).result.toOption.map
        (fun r => (r.status, r.check_count))) =
      some ("processing", some (checkCountAfter store chat_id))) ∧
    (∀ (cf : Except String ChatData) (mf2 : Except String (Option (List ChatMessage))),
      storeGet (check_agent_response store chat_id now cf mf2).store
          ("check_count:" ++ chat_id) =
        some (toString (checkCountAfter store chat_id))) ∧
    (∀ s n, storeGet store ("check_count:" ++ chat_id) = some s →
      parseIntDec s = some n → checkCountAfter store chat_id = n + 1) := by
  refine ⟨?_, ?_, ?_⟩
  · simp [check_agent_response, herr, hstream, Except.toOption]
  · intro cf mf2
    rw [check_store_eq, storeGet_storeSet_self]
  · intro s n hs hp
    have hne : s ≠ "" := by
      intro h
      rw [h, show parseIntDec "" = none from rfl] at hp
      exact Option.noConfusion hp
    unfold checkCountAfter
    rw [hs]
    simp [truthyStr, hne, hp]

/-- C7 witness: with a stored count of "2", a streaming check returns
`processing` with poll count 3, stores "3", and 3 = 2 + 1. -/
theorem C7_witness :
    (((check_agent_response [("check_count:c1", "2")] "c1" 0
        (.ok (ChatData.mk "streaming" 0 none)) (.ok none)).result.toOption.map
        (fun r => (r.status, r.check_count))) = some ("processing", some 3)) ∧
    storeGet (check_agent_response [("check_count:c1", "2")] "c1" 0
        (.ok (ChatData.mk "streaming" 0 none)) (.ok none)).store "check_count:c1" =
      some "3" ∧
    checkCountAfter [("check_count:c1", "2")] "c1" = 2 + 1 := by
  have h := C7_poll_count_increment [("check_count:c1", "2")] "c1" 0
    (ChatData.mk "streaming" 0 none) (.ok none) (by decide) rfl
  refine ⟨?_, ?_, ?_⟩
  · rw [h.1]
    decide
  · have h2 := h.2.1 (.ok (ChatData.mk "streaming" 0 none)) (.ok none)
    rw [show ("check_count:" ++ "c1" : String) = "check_count:c1" from rfl] at h2
    rw [h2]
    decide
  · exact h.2.2 "2" 2 (by decide) (by decide)

/-- C2 counterexample: a completed check (idle chat, no error, one
assistant message) returns a result whose `check_count` field is absent —
the completed result does not carry the poll count, refuting the claim
that every result does. -/
theorem C2_counterexample :
    Option.map (fun r => (r.status, r.check_count, r.response, r.message_count,
        r.assistant_message_count))
      (check_agent_response [] "c1" 0 (.ok (ChatData.mk "idle" 0 none))
        (.ok (some [ChatMessage.mk "assistant"
          (some [MsgPart.mk "text" (some "hi")])]))).result.toOption =
      some ("completed", none, some "hi", some 1, some 1) := by
  rfl

/-- C2 (amended): results from the error, streaming, timeout and
pending-state branches carry the poll count at the time of the check; the
completed result carries the aggregated response plus the total and
assistant message counts but no poll count; the idle-with-no-assistant-
messages processing result carries no poll count either. -/
theorem C2_result_fields (store : Store) (chat_id : String) (now : Int)
    (cd : ChatData) (mf : Except String (Option (List ChatMessage))) :
    (truthyOpt cd.error = true →
      ((check_agent_response store chat_id now (.ok cd) mf).result.toOption.map
        (fun r => (r.status, r.check_count))) =
        some ("error", some (checkCountAfter store chat_id))) ∧
    (truthyOpt cd.error = false → cd.status = "streaming" →
      ((check_agent_response store chat_id now (.ok cd) mf).result.toOption.map
        (fun r => (r.status, r.check_count))) =
        some ("processing", some (checkCountAfter store chat_id))) ∧
    (truthyOpt cd.error = false → cd.status ≠ "streaming" → cd.status ≠ "idle" →
      ((check_agent_response store chat_id now (.ok cd) mf).result.toOption.map
        (fun r => (r.status, r.check_count))) =
        some ((if now - cd.created_at > 2 * 60 * 1000 then "timeout" else "processing"),
          some (checkCountAfter store chat_id))) ∧
    (truthyOpt cd.error = false → cd.status = "idle" →
      ∀ items : Option (List ChatMessage), mf = .ok items →
        (((items.getD []).filter (fun m => m.role == "assistant")) = [] →
          ((check_agent_response store chat_id now (.ok cd) mf).result.toOption.map
            (fun r => (r.status, r.check_count))) = some ("processing", none)) ∧
        (((items.getD []).filter (fun m => m.role == "assistant")) ≠ [] →
          ((check_agent_response store chat_id now (.ok cd) mf).result.toOption.map
            (fun r => (r.status, r.check_count, r.response.isSome, r.message_count,
              r.assistant_message_count))) =
            some ("completed", none, true, some (items.getD []).length,
              some ((items.getD []).filter (fun m => m.role == "assistant")).length))) := by
  refine ⟨?_, ?_, ?_, ?_⟩
  · intro herr
    simp [check_agent_response, herr, Except.toOption]
  · intro herr hstream
    simp [check_agent_response, herr, hstream, Except.toOption]
  · intro herr hstream hidle
    have h1 : (cd.status == "streaming") = false := by simp [hstream]
    have h2 : (cd.status != "idle") = true := by simp [hidle]
    simp only [check_agent_response, herr, h1, h2, Bool.false_eq_true, if_false, if_true]
    split <;> simp [Except.toOption]
  · intro herr hidle items hitems
    subst hitems
    have h1 : (cd.status == "streaming") = false := by simp [hidle]
    have h2 : (cd.status != "idle") = false := by simp [hidle]
    constructor
    · intro hnone
      have hemp : ((items.getD []).filter (fun m => m.role == "assistant")).isEmpty = true := by
        rw [hnone]
        rfl
      simp [check_agent_response, herr, h1, h2, hemp, Except.toOption]
    · intro hsome
      have hemp : ((items.getD []).filter (fun m => m.role == "assistant")).isEmpty = false := by
        cases hl : (items.getD []).filter (fun m => m.role == "assistant") with
        | nil => exact absurd hl hsome
        | cons a l => rfl
      simp [check_agent_response, herr, h1, h2, hemp, Except.toOption]

/-- C2 witness: with a truthy error, the returned error result carries
poll count 1. -/
theorem C2_witness :
    ((check_agent_response [] "c1" 0 (.ok (ChatData.mk "streaming" 0 (some "boom")))
        (.ok none)).result.toOption.map (fun r => (r.status, r.check_count))) =
      some ("error", some 1) := by
  have h := (C2_result_fields [] "c1" 0 (ChatData.mk "streaming" 0 (some "boom"))
    (.ok none)).1 (by decide)
  rw [h]
  rfl

/-- C5 counterexample: an idle chat with one assistant message holding
text parts "a", "" and "b" yields response "a\n\nb" — the code skips
empty (falsy) text parts — whereas the text of every text-typed part
joined by a blank line and trimmed is "a\n\n\n\nb"; the claim as stated
over every text-typed part is therefore false. -/
theorem C5_counterexample :
    (((check_agent_response [] "c1" 0 (.ok (ChatData.mk "idle" 0 none))
        (.ok (some [ChatMessage.mk "assistant" (some [MsgPart.mk "text" (some "a"),
          MsgPart.mk "text" (some ""),
          MsgPart.mk "text" (some "b")])]))).result.toOption.bind
      (fun r => r.response)) = some "a\n\nb") ∧
    jsTrim (joinBlankLine (assistantTextPartTexts
      [ChatMessage.mk "assistant" (some [MsgPart.mk "text" (some "a"),
        MsgPart.mk "text" (some ""), MsgPart.mk "text" (some "b")])])) = "a\n\n\n\nb" ∧
    ("a\n\nb" : String) ≠ "a\n\n\n\nb" := by
  refine ⟨rfl, rfl, by decide⟩

/-- C5 (amended): for every idle chat with no truthy error and at least
one assistant message, the completed response equals the text of every
text-typed part with non-empty text of every assistant message, in
message order, joined by a blank line and trimmed of surrounding
whitespace — or the fixed fallback string when that aggregate is empty. -/
theorem C5_completed_aggregation (store : Store) (chat_id : String) (now : Int)
    (cd : ChatData) (items : Option (List ChatMessage))
    (herr : truthyOpt cd.error = false) (hidle : cd.status = "idle")
    (hassist : (items.getD []).filter (fun m => m.role == "assistant") ≠ []) :
    ((check_agent_response store chat_id now (.ok cd) (.ok items)).result.toOption.bind
      (fun r => r.response)) =
      some (if truthyStr (jsTrim (joinBlankLine (keptTextsOfMessages
            ((items.getD []).filter (fun m => m.role == "assistant")))))
        then jsTrim (joinBlankLine (keptTextsOfMessages
            ((items.getD []).filter (fun m => m.role == "assistant"))))
        else "Agent returned no text response") := by
  have h1 : (cd.status == "streaming") = false := by simp [hidle]
  have h2 : (cd.status != "idle") = false := by simp [hidle]
  have hemp : ((items.getD []).filter (fun m => m.role == "assistant")).isEmpty = false := by
    cases hl : (items.getD []).filter (fun m => m.role == "assistant") with
    | nil => exact absurd hl hassist
    | cons a l => rfl
  have hagg : jsTrim (collectAssistantText
      ((items.getD []).filter (fun m => m.role == "assistant"))) =
      jsTrim (joinBlankLine (keptTextsOfMessages
        ((items.getD []).filter (fun m => m.role == "assistant")))) := by
    rw [collectAssistantText_eq, jsTrim_sepJoin]
  simp [check_agent_response, herr, h1, h2, hemp, Except.toOption, hagg]

/-- C5 witness: assistant messages M1 and M2 with single text parts "a"
and "b" aggregate to "a\n\nb", not just "b". -/
theorem C5_witness :
    ((check_agent_response [] "c1" 0 (.ok (ChatData.mk "idle" 0 none))
        (.ok (some [ChatMessage.mk "assistant" (some [MsgPart.mk "text" (some "a")]),
          ChatMessage.mk "assistant"
            (some [MsgPart.mk "text" (some "b")])]))).result.toOption.bind
      (fun r => r.response)) = some "a\n\nb" := by
  have h := C5_completed_aggregation [] "c1" 0 (ChatData.mk "idle" 0 none)
    (some [ChatMessage.mk "assistant" (some [MsgPart.mk "text" (some "a")]),
      ChatMessage.mk "assistant" (some [MsgPart.mk "text" (some "b")])])
    (by decide) rfl (by decide)
  rw [h]
  rfl

/-- C1 counterexample: with a stored chat id whose chat is 20 hours old
(creation time 0, current time 72000000 ms — far beyond the one-hour
threshold of 3600000 ms), `delegate_to_agent` with `force_new_chat = false`
still appends to the old chat: it returns a continued (not new) handle,
keeps the stored record pointing at the old chat id, and issues no
chat-creation request — the code applies no age check, refuting the
claim. -/
theorem C1_counterexample :
    ((72000000 : Int) -
      (Remote.mk (fun _ _ => .ok) (fun _ _ _ => .ok "chat_new")
        (fun _ => 0)).chat_created_at "chat1" > 3600000) ∧
    Option.map (fun h => h.continued_conversation)
      (delegate_to_agent
        (Remote.mk (fun _ _ => .ok) (fun _ _ _ => .ok "chat_new") (fun _ => 0))
        [("agent_chat:agent1", "chat1")] "agent1" "org1" "hello"
        false).result.toOption = some true ∧
    storeGet (delegate_to_agent
        (Remote.mk (fun _ _ => .ok) (fun _ _ _ => .ok "chat_new") (fun _ => 0))
        [("agent_chat:agent1", "chat1")] "agent1" "org1" "hello"
        false).store "agent_chat:agent1" = some "chat1" ∧
    (delegate_to_agent
        (Remote.mk (fun _ _ => .ok) (fun _ _ _ => .ok "chat_new") (fun _ => 0))
        [("agent_chat:agent1", "chat1")] "agent1" "org1" "hello"
        false).requests = [WireRequest.appendMessage "chat1" "hello"] := by
  refine ⟨by decide, rfl, rfl, rfl⟩

/-- C1 (amended): `delegate_to_agent` with `force_new_chat = false` and a
stored (non-empty) chat id applies no freshness check: whenever the append
succeeds it reuses the stored chat regardless of the chat's age — for
every remote, so in particular for every `chat_created_at` value — returns
a continued handle, keeps the stored record, resets the chat's poll
counter to "0", and sends only the append request; the record is deleted
and a new chat created only on a 404. -/
theorem C1_no_staleness_check (remote : Remote) (store : Store)
    (agent_id organization_id query chat_id : String)
    (hstore : storeGet store ("agent_chat:" ++ agent_id) = some chat_id)
    (hne : chat_id ≠ "")
    (happ : remote.append chat_id query = .ok) :
    (delegate_to_agent remote store agent_id organization_id query false).result =
      .ok (DelegationHandle.mk "delegated"
        "Successfully sent message to existing conversation with agent. The agent is processing your request."
        chat_id agent_id query true) ∧
    storeGet (delegate_to_agent remote store agent_id organization_id query
        false).store ("agent_chat:" ++ agent_id) = some chat_id ∧
    storeGet (delegate_to_agent remote store agent_id organization_id query
        false).store ("check_count:" ++ chat_id) = some "0" ∧
    (delegate_to_agent remote store agent_id organization_id query false).requests =
      [WireRequest.appendMessage chat_id query] := by
  have hother := storeGet_storeSet_other store ("check_count:" ++ chat_id)
    ("agent_chat:" ++ agent_id) "0" (agentKey_ne_checkKey agent_id chat_id)
  simp [delegate_to_agent, hstore, happ, truthyStr, hne, hother,
    storeGet_storeSet_self]

/-- C1 witness: the amended behavior at the 20-hour-old concrete instance
of the counterexample — the stored record survives and the handle is
continued. -/
theorem C1_witness :
    (delegate_to_agent
        (Remote.mk (fun _ _ => .ok) (fun _ _ _ => .ok "chat_new") (fun _ => 0))
        [("agent_chat:agent1", "chat1")] "agent1" "org1" "hello" false).result =
      .ok (DelegationHandle.mk "delegated"
        "Successfully sent message to existing conversation with agent. The agent is processing your request."
        "chat1" "agent1" "hello" true) := by
  have h := (C1_no_staleness_check
    (Remote.mk (fun _ _ => .ok) (fun _ _ _ => .ok "chat_new") (fun _ => 0))
    [("agent_chat:agent1", "chat1")] "agent1" "org1" "hello" "chat1"
    (by decide) (by decide) rfl).1
  exact h

/-- C6: when the stored chat id draws a 404 on append, `delegate_to_agent`
deletes the stale record, creates a fresh chat, stores the new chat id
under `agent_chat:<agent_id>`, initializes `check_count:<newChatId>` to
"0", returns a handle marked as a new (not continued) conversation, and
the requests sent are the append followed by the create. -/
theorem C6_notfound_recovery (remote : Remote) (store : Store)
    (agent_id organization_id query chat_id body newChatId : String)
    (hstore : storeGet store ("agent_chat:" ++ agent_id) = some chat_id)
    (hne : chat_id ≠ "")
    (happ : remote.append chat_id query = .err 404 body)
    (hcreate : remote.create organization_id agent_id query = .ok newChatId) :
    (delegate_to_agent remote store agent_id organization_id query false).result =
      .ok (DelegationHandle.mk "delegated"
        "Successfully delegated query to agent. The agent is processing your request."
        newChatId agent_id query false) ∧
    storeGet (delegate_to_agent remote store agent_id organization_id query
        false).store ("agent_chat:" ++ agent_id) = some newChatId ∧
    storeGet (delegate_to_agent remote store agent_id organization_id query
        false).store ("check_count:" ++ newChatId) = some "0" ∧
    (delegate_to_agent remote store agent_id organization_id query false).requests =
      [WireRequest.appendMessage chat_id query,
        WireRequest.createChat organization_id agent_id query] := by
  have hother := storeGet_storeSet_other
    (storeSet (storeDelete store ("agent_chat:" ++ agent_id))
      ("agent_chat:" ++ agent_id) newChatId)
    ("check_count:" ++ newChatId) ("agent_chat:" ++ agent_id) "0"
    (agentKey_ne_checkKey agent_id newChatId)
  simp [delegate_to_agent, createNewChat, hstore, happ, hcreate, truthyStr, hne,
    hother, storeGet_storeSet_self]

/-- C6 witness: a concrete 404-on-append run producing a new handle for
chat "chat_new", the record overwritten and the new poll counter at "0". -/
theorem C6_witness :
    (delegate_to_agent
        (Remote.mk (fun _ _ => .err 404 "not found")
          (fun _ _ _ => .ok "chat_new") (fun _ => 0))
        [("agent_chat:agent1", "chat1")] "agent1" "org1" "hello" false).result =
      .ok (DelegationHandle.mk "delegated"
        "Successfully delegated query to agent. The agent is processing your request."
        "chat_new" "agent1" "hello" false) := by
  exact (C6_notfound_recovery
    (Remote.mk (fun _ _ => .err 404 "not found") (fun _ _ _ => .ok "chat_new") (fun _ => 0))
    [("agent_chat:agent1", "chat1")] "agent1" "org1" "hello" "chat1" "not found"
    "chat_new" (by decide) (by decide) rfl rfl).1

/-- C9: for every query string, every outbound request body placed on the
wire by `delegate_to_agent` — the append to an existing chat as well as
the chat creation — carries exactly the query text, with no
transformation. -/
theorem C9_verbatim_query (remote : Remote) (store : Store)
    (agent_id organization_id query : String) (force_new_chat : Bool) :
    ∀ r ∈ (delegate_to_agent remote store agent_id organization_id query
        force_new_chat).requests, requestText r = query := by
  intro r hr
  unfold delegate_to_agent createNewChat at hr
  dsimp only at hr
  cases hs : storeGet store ("agent_chat:" ++ agent_id) with
  | none =>
    rw [hs] at hr
    dsimp only at hr
    cases hc : remote.create organization_id agent_id query with
    | ok nid =>
      rw [hc] at hr
      simp at hr
      exact hr ▸ rfl
    | err c b =>
      rw [hc] at hr
      simp at hr
      exact hr ▸ rfl
  | some cid =>
    rw [hs] at hr
    dsimp only at hr
    by_cases hcond : (truthyStr cid && !force_new_chat) = true
    · rw [if_pos hcond] at hr
      cases ha : remote.append cid query with
      | ok =>
        rw [ha] at hr
        simp at hr
        exact hr ▸ rfl
      | err c b =>
        rw [ha] at hr
        dsimp only at hr
        by_cases h404 : (c == 404) = true
        · rw [if_pos h404] at hr
          cases hc : remote.create organization_id agent_id query with
          | ok nid =>
            rw [hc] at hr
            simp at hr
            rcases hr with rfl | rfl <;> rfl
          | err c2 b2 =>
            rw [hc] at hr
            simp at hr
            rcases hr with rfl | rfl <;> rfl
        · rw [if_neg h404] at hr
          simp at hr
          exact hr ▸ rfl
    · rw [if_neg hcond] at hr
      cases hc : remote.create organization_id agent_id query with
      | ok nid =>
        rw [hc] at hr
        simp at hr
        exact hr ▸ rfl
      | err c b =>
        rw [hc] at hr
        simp at hr
        exact hr ▸ rfl

/-- C9 witness: in a concrete 404-recovery run both outbound requests
(append then create) carry the query verbatim. -/
theorem C9_witness :
    requestText (WireRequest.createChat "org1" "agent1" "What is in v2?") =
      "What is in v2?" :=
  C9_verbatim_query
    (Remote.mk (fun _ _ => .err 404 "gone") (fun _ _ _ => .ok "chat_new") (fun _ => 0))
    [("agent_chat:agent1", "chat1")] "agent1" "org1" "What is in v2?" false
    (WireRequest.createChat "org1" "agent1" "What is in v2?") (by decide)

/-- C8: with no organization id given (argument and environment both
absent) and two organizations where exactly one's agent-listing call
fails, `list_agents` returns exactly the other organization's agents —
not an empty result and not an error. -/
theorem C8_resilient_discovery (remote : DiscoveryRemote) (apiToken : Option String)
    (o1 o2 : String) (items : List String)
    (htok : truthyOpt apiToken = true)
    (horgs : remote.organizations = .ok [o1, o2]) :
    (∀ e, remote.agents o1 = .error e → remote.agents o2 = .ok items →
      list_agents remote apiToken none none = .ok items) ∧
    (∀ e, remote.agents o2 = .error e → remote.agents o1 = .ok items →
      list_agents remote apiToken none none = .ok items) := by
  have hnone : truthyOpt none = false := rfl
  constructor
  · intro e h1 h2
    simp [list_agents, htok, hnone, horgs, h1, h2]
  · intro e h1 h2
    simp [list_agents, htok, hnone, horgs, h1, h2]

/-- C8 witness: organizations "o1" (listing fails) and "o2" (agents
["a1", "a2"]) yield exactly ["a1", "a2"]. -/
theorem C8_witness :
    list_agents
      (DiscoveryRemote.mk (.ok ["o1", "o2"])
        (fun o => if o == "o1" then .error "boom" else .ok ["a1", "a2"]))
      (some "token") none none = .ok ["a1", "a2"] :=
  (C8_resilient_discovery
    (DiscoveryRemote.mk (.ok ["o1", "o2"])
      (fun o => if o == "o1" then .error "boom" else .ok ["a1", "a2"]))
    (some "token") "o1" "o2" ["a1", "a2"] (by decide) rfl).1 "boom" rfl rfl
